import Mathlib

/-!
Verification of the order/consultation/bonus/payout engine of a Telegram
commerce bot (src/main.py, class Database).  The PostgreSQL tables are
embedded as Lean structures, a `DB` record bundles the whole store, and each
engine method of the Python class is translated to a pure state-passing
function.  SQL `UPDATE ... WHERE` is modelled by mapping a conditional update
over the table list; SQL `SELECT ... WHERE` / `fetchrow` by `List.find?`;
a raised Python exception (which rolls the surrounding transaction back) by
the `PyRes.exn` result paired with the unchanged store.  Timestamps and dates
are abstract `Nat` instants passed in by the caller; randomized
number suffixes are abstracted to the serial counter of the table.
-/

namespace Bot

/-- Row of table `users` (columns the ledger engine reads or writes). -/
structure User where
  id : Nat
  telegram_id : Nat
  full_name : String
  referral_code : String
  referrer_id : Option Nat
  balance : Int
  total_earned : Int
  pending_earnings : Int
deriving DecidableEq

/-- Row of table `orders`.  `emotions` is the decoded JSONB list. -/
structure OrderRow where
  id : Nat
  order_number : String
  user_id : Nat
  phone : Option String
  game_name : Option String
  occasion : Option String
  target_audience : Option String
  budget : Option String
  players_count : Option String
  emotions : List String
  game_basis : Option String
  source : Option String
  play_frequency : Option String
  description : Option String
  telegram_username : Option String
  price : Option Int
  paid_amount : Int
  discount_percent : Int
  current_stage : Int
  total_stages : Int
  progress_percent : Int
  manager_id : Option Nat
  deadline : Option Nat
  status : String
  started_at : Option Nat
  last_activity : Nat
  completed_at : Option Nat
  created_at : Nat
deriving DecidableEq

/-- Row of table `order_stages`. -/
structure OrderStage where
  id : Nat
  order_id : Nat
  stage_number : Nat
  stage_name : String
  completed : Bool
  completed_at : Option Nat
  manager_comment : Option String
deriving DecidableEq

/-- Row of table `consultation_slots`. -/
structure ConsultationSlot where
  id : Nat
  slot_date : Nat
  slot_time : Nat
  is_available : Bool
  booked_by : Option Nat
  created_by_admin : Nat
deriving DecidableEq

/-- Row of table `consultations` (columns the engine reads or writes). -/
structure Consultation where
  id : Nat
  consultation_number : String
  user_id : Nat
  consultation_date : Nat
  consultation_time : Nat
  duration : Int
  price : Int
  status : String
  payment_confirmed : Bool
  manager_id : Option Nat
  reminder_sent : Bool
deriving DecidableEq

/-- Row of table `bonuses`.  `conditions` keeps the integer-valued top-level
keys of the JSONB condition document (the engine only ever reads the integer
keys `weeks_required` and `clients_required`); the free-text columns
`description` and `detailed_description` carry no engine logic and are
omitted. -/
structure Bonus where
  id : Nat
  name : String
  reward : Int
  conditions : List (String × Int)
  duration_days : Nat
  max_activations : Int
  can_combine : Bool
  requirements : String
  status : String
  icon : String
  position : Int
deriving DecidableEq

/-- Row of table `user_bonuses`.  The table declares
`UNIQUE(user_id, bonus_id)`. -/
structure UserBonus where
  id : Nat
  user_id : Nat
  bonus_id : Nat
  progress : Int
  total_required : Int
  start_date : Nat
  end_date : Nat
  status : String
  proof_data : Option String
  reward_paid : Bool
deriving DecidableEq

/-- Row of table `payouts`. -/
structure Payout where
  id : Nat
  payout_number : String
  user_id : Nat
  amount : Int
  card_number : String
  card_holder : String
  status : String
  processed_by : Option Nat
  rejection_reason : Option String
deriving DecidableEq

/-- Row of table `receipts`. -/
structure Receipt where
  id : Nat
  receipt_number : String
  user_id : Nat
  amount : Int
  payment_type : String
  order_id : Option Nat
  consultation_id : Option Nat
  confirmed : Bool
  confirmed_by : Option Nat
deriving DecidableEq

/-- Row of table `system_settings` (key is the primary key). -/
structure SettingRow where
  key : String
  value : String
  descr : String
deriving DecidableEq

/-- Row of table `notifications`; the JSONB payload is abstracted away, the
routing columns are kept. -/
structure NotificationRow where
  notification_type : String
  user_id : Option Nat
  admin_only : Bool
deriving DecidableEq

/-- Row of table `activity_log`.  Of the JSONB `details` document we keep the
two components the audit claims are about: the `reason` string and the signed
`amount` of a balance operation (both are `""` resp. `0` when the logged
action carries no such component). -/
structure LogEntry where
  user_id : Option Nat
  action_type : String
  reason : String
  amount : Int
deriving DecidableEq

/-- The whole persistent store, one list per table, plus the serial-id
counters of the tables whose rows the modelled operations insert. -/
structure DB where
  users : List User
  orders : List OrderRow
  order_stages : List OrderStage
  consultation_slots : List ConsultationSlot
  consultations : List Consultation
  bonuses : List Bonus
  user_bonuses : List UserBonus
  payouts : List Payout
  receipts : List Receipt
  system_settings : List SettingRow
  notifications : List NotificationRow
  activity_log : List LogEntry
  order_seq : Nat
  consultation_seq : Nat
  user_bonus_seq : Nat
  payout_seq : Nat
  bonus_seq : Nat
deriving DecidableEq

/-- Result of a Python coroutine: either a returned value or a raised
exception (`exn`); an in-transaction exception rolls every mutation of the
operation back, so `exn` is always paired with the untouched store. -/
inductive PyRes (α : Type) where
  | ok : α → PyRes α
  | exn : PyRes α
deriving DecidableEq

/-- `UPDATE t SET ... WHERE p`: apply `f` to every row satisfying `p`. -/
def applyIf (p : α → Bool) (f : α → α) (a : α) : α :=
  if p a then f a else a

/-- Table after a conditional SQL UPDATE. -/
def updateWhere (l : List α) (p : α → Bool) (f : α → α) : List α :=
  l.map (applyIf p f)

/-- `SELECT * FROM users WHERE id = $1` (used by `get_user_by_id`). -/
def getUser (db : DB) (uid : Nat) : Option User :=
  db.users.find? (fun u => u.id == uid)

/-- `Database.log_activity`: append one audit row. -/
def log_activity (db : DB) (uid : Option Nat) (action : String)
    (reason : String) (amount : Int) : DB :=
  { db with activity_log := db.activity_log ++ [⟨uid, action, reason, amount⟩] }

/-- `Database.create_notification`: append one notification row. -/
def create_notification (db : DB) (ntype : String) (uid : Option Nat)
    (admin_only : Bool) : DB :=
  { db with notifications := db.notifications ++ [⟨ntype, uid, admin_only⟩] }

/-- `Database.get_system_setting`: value of a key, if present. -/
def get_system_setting (db : DB) (key : String) : Option String :=
  (db.system_settings.find? (fun s => s.key == key)).map (fun s => s.value)

/-- Value of a decimal digit character. -/
def digitVal (c : Char) : Option Nat :=
  if 48 ≤ c.toNat ∧ c.toNat ≤ 57 then some (c.toNat - 48) else none

/-- Parse a nonempty all-digit character list. -/
def parseNatDigits (cs : List Char) : Option Nat :=
  if cs = [] then none
  else cs.foldl (fun acc c =>
    match acc, digitVal c with
    | some a, some d => some (a * 10 + d)
    | _, _ => none) (some 0)

/-- Integer reading of a setting string: the common core of the SQL
`value::integer` cast and the Python `int(...)` call.  `none` models the
raised conversion error for a non-numeric value. -/
def strToInt (s : String) : Option Int :=
  match s.data with
  | [] => none
  | c :: cs =>
    if c = '-' then (parseNatDigits cs).map (fun n => -(n : Int))
    else (parseNatDigits (c :: cs)).map (fun n => (n : Int))

/-- `await conn.fetchval("SELECT value::integer ... WHERE key = k") or dflt`:
a missing key gives NULL hence the default, a zero value is falsy in Python
and also gives the default, a non-numeric value raises (`none`). -/
def fetch_setting_int_or (db : DB) (key : String) (dflt : Int) : Option Int :=
  match get_system_setting db key with
  | none => some dflt
  | some v =>
    match strToInt v with
    | none => none
    | some n => some (if n = 0 then dflt else n)

/-- `int(await self.get_system_setting(k) or dflt)`: here the `or` acts on
the raw string, so only a missing key or the empty string is falsy; the
string "0" converts to 0. -/
def py_int_setting_or (db : DB) (key : String) (dflt : Int) : Option Int :=
  match get_system_setting db key with
  | none => some dflt
  | some v => if v = "" then some dflt else strToInt v

/-- The row change of `Database.update_user_balance`:
`balance = balance + a, total_earned = total_earned + CASE WHEN a > 0 THEN a
ELSE 0 END`. -/
def credit (amount : Int) (u : User) : User :=
  { u with balance := u.balance + amount,
           total_earned := u.total_earned + (if amount > 0 then amount else 0) }

/-- `Database.update_user_balance` (src/main.py:687): unconditionally apply
the signed delta to `balance`, accumulate only positive deltas into
`total_earned`, log the operation, return `True`. -/
def update_user_balance (db : DB) (uid : Nat) (amount : Int)
    (reason : String) : Bool × DB :=
  let users1 := updateWhere db.users (fun u => u.id == uid) (credit amount)
  let db1 := { db with users := users1 }
  (true, log_activity db1 (some uid) "balance_update" reason amount)

/-- A finite sequence of `update_user_balance` calls on one user. -/
def apply_balance_updates (db : DB) (uid : Nat) (amounts : List Int)
    (reason : String) : DB :=
  amounts.foldl (fun s a => (update_user_balance s uid a reason).snd) db

/-- Sum of the signed deltas of a call sequence. -/
def sum_deltas (l : List Int) : Int :=
  l.foldr (fun a s => a + s) 0

/-- Sum of only the positive deltas of a call sequence. -/
def sum_pos_deltas (l : List Int) : Int :=
  l.foldr (fun a s => (if a > 0 then a else 0) + s) 0

/-- The order-form payload assembled by the conversational collector and
handed to `create_order` (the `data` dict). -/
structure OrderForm where
  phone : Option String
  game_name : Option String
  occasion : Option String
  target_audience : Option String
  budget : Option String
  players_count : Option String
  emotions : List String
  game_basis : Option String
  source : Option String
  play_frequency : Option String
  description : Option String
  telegram_username : Option String
deriving DecidableEq

/-- `Database.create_order` (src/main.py:711): insert one `orders` row — the
progress, status and finance columns take their DDL defaults
(`status = new`, `current_stage = 1`, `total_stages = 9`,
`progress_percent = 0`, `paid_amount = 0`), `started_at` and `last_activity`
are stamped with the current instant — then raise the admin `new_order`
notification.  No `order_stages` rows are inserted anywhere in the method. -/
def create_order (db : DB) (uid : Nat) (data : OrderForm) (now : Nat) :
    OrderRow × DB :=
  let o : OrderRow :=
    { id := db.order_seq, order_number := "SG" ++ toString db.order_seq,
      user_id := uid, phone := data.phone, game_name := data.game_name,
      occasion := data.occasion, target_audience := data.target_audience,
      budget := data.budget, players_count := data.players_count,
      emotions := data.emotions, game_basis := data.game_basis,
      source := data.source, play_frequency := data.play_frequency,
      description := data.description,
      telegram_username := data.telegram_username,
      price := none, paid_amount := 0, discount_percent := 0,
      current_stage := 1, total_stages := 9, progress_percent := 0,
      manager_id := none, deadline := none, status := "new",
      started_at := some now, last_activity := now, completed_at := none,
      created_at := now }
  let db1 := { db with orders := db.orders ++ [o],
                       order_seq := db.order_seq + 1 }
  -- the user lookup feeding the notification text tolerates a missing user
  let db2 := create_notification db1 "new_order" none true
  (o, db2)

/-- `Database.book_consultation` (src/main.py:1000): conditional
`UPDATE consultation_slots SET is_available = FALSE, booked_by = $1 WHERE id
= $2 AND is_available = TRUE RETURNING *`; on no row return None unchanged;
otherwise insert the `consultations` row with the price read from
`system_settings` now, notify admins, log.  A failing price cast or a
missing booking user raises and rolls the transaction back. -/
def book_consultation (db : DB) (uid : Nat) (slot_id : Nat) :
    PyRes (Option Consultation) × DB :=
  match db.consultation_slots.find?
      (fun s => s.id == slot_id && s.is_available) with
  | none => (PyRes.ok none, db)
  | some s =>
    match fetch_setting_int_or db "consultation_price" 450 with
    | none => (PyRes.exn, db)
    | some price =>
      match getUser db uid with
      | none => (PyRes.exn, db)
      | some _ =>
        let slots1 := updateWhere db.consultation_slots
          (fun t => t.id == slot_id && t.is_available)
          (fun t => { t with is_available := false, booked_by := some uid })
        let c : Consultation :=
          { id := db.consultation_seq,
            consultation_number := "CONS" ++ toString db.consultation_seq,
            user_id := uid, consultation_date := s.slot_date,
            consultation_time := s.slot_time, duration := 45,
            price := price, status := "pending",
            payment_confirmed := false, manager_id := none,
            reminder_sent := false }
        let db1 := { db with consultation_slots := slots1,
                             consultations := db.consultations ++ [c],
                             consultation_seq := db.consultation_seq + 1 }
        let db2 := create_notification db1 "new_consultation" none true
        let db3 := log_activity db2 (some uid) "consultation_booked" "" 0
        (PyRes.ok (some c), db3)

/-- `Database.confirm_consultation_payment` (src/main.py:1071): conditional
update only if not already confirmed; assigns the confirming admin as
manager; notifies the user; logs. -/
def confirm_consultation_payment (db : DB) (consultation_id : Nat)
    (admin_id : Nat) : Bool × DB :=
  match db.consultations.find?
      (fun c => c.id == consultation_id && !c.payment_confirmed) with
  | none => (false, db)
  | some c =>
    let tbl := updateWhere db.consultations
      (fun d => d.id == consultation_id && !d.payment_confirmed)
      (fun d => { d with payment_confirmed := true, status := "confirmed",
                         manager_id := some admin_id })
    let db1 := { db with consultations := tbl }
    let db2 := create_notification db1 "consultation_confirmed"
      (some c.user_id) false
    (true, log_activity db2 (some admin_id)
      "consultation_payment_confirmed" "" 0)

/-- `Database.create_payout_request` (src/main.py:1366): refuse (None,
nothing mutated) when the balance is below the amount or the amount is
below the configured minimum; otherwise insert the pending `payouts` row and
atomically move the amount from `balance` into `pending_earnings`. -/
def create_payout_request (db : DB) (uid : Nat) (amount : Int)
    (card_number : String) (card_holder : String) :
    PyRes (Option Payout) × DB :=
  match getUser db uid with
  | none => (PyRes.exn, db)   -- user["balance"] on a missing row raises
  | some u =>
    if u.balance < amount then (PyRes.ok none, db)
    else
      match fetch_setting_int_or db "min_payout" 2000 with
      | none => (PyRes.exn, db)
      | some min_payout =>
        if amount < min_payout then (PyRes.ok none, db)
        else
          let p : Payout :=
            { id := db.payout_seq,
              payout_number := "PAY" ++ toString db.payout_seq,
              user_id := uid, amount := amount,
              card_number := card_number, card_holder := card_holder,
              status := "pending", processed_by := none,
              rejection_reason := none }
          let db1 := { db with payouts := db.payouts ++ [p],
                               payout_seq := db.payout_seq + 1 }
          let users2 := updateWhere db1.users
            (fun w => w.id == uid)
            (fun w => { w with
              balance := w.balance - amount,
              pending_earnings := w.pending_earnings + amount })
          let db2 := { db1 with users := users2 }
          let db3 := create_notification db2 "new_payout" none true
          let db4 := log_activity db3 (some uid) "payout_requested" "" amount
          (PyRes.ok (some p), db4)

/-- `Database.process_payout` (src/main.py:1444): conditional fetch of the
payout only while in status pending; approve completes it and clears the
reservation from `pending_earnings` without touching `balance`; reject
restores the amount to `balance` and clears it from `pending_earnings`. -/
def process_payout (db : DB) (payout_id : Nat) (admin_id : Nat)
    (approve : Bool) (rejection_reason : Option String) : Bool × DB :=
  match db.payouts.find?
      (fun p => p.id == payout_id && p.status == "pending") with
  | none => (false, db)
  | some p =>
    if approve then
      let pay1 := updateWhere db.payouts
        (fun q => q.id == payout_id)
        (fun q => { q with status := "completed",
                           processed_by := some admin_id })
      let db1 := { db with payouts := pay1 }
      let users1 := updateWhere db1.users
        (fun w => w.id == p.user_id)
        (fun w => { w with
          pending_earnings := w.pending_earnings - p.amount })
      let db2 := { db1 with users := users1 }
      let db3 := create_notification db2 "payout_approved"
        (some p.user_id) false
      (true, log_activity db3 (some admin_id) "payout_approved" "" p.amount)
    else
      let pay1 := updateWhere db.payouts
        (fun q => q.id == payout_id)
        (fun q => { q with status := "rejected",
                           processed_by := some admin_id,
                           rejection_reason := rejection_reason })
      let db1 := { db with payouts := pay1 }
      let users1 := updateWhere db1.users
        (fun w => w.id == p.user_id)
        (fun w => { w with
          balance := w.balance + p.amount,
          pending_earnings := w.pending_earnings - p.amount })
      let db2 := { db1 with users := users1 }
      let db3 := create_notification db2 "payout_rejected"
        (some p.user_id) false
      (true, log_activity db3 (some admin_id) "payout_rejected" "" p.amount)

/-- `conditions.get(key, dflt)` on the decoded condition document. -/
def condGet (conds : List (String × Int)) (key : String) (dflt : Int) : Int :=
  match conds.find? (fun kv => kv.fst == key) with
  | some kv => kv.snd
  | none => dflt

/-- The per-bonus-id interpretation of `total_required` hard-coded in
`Database.activate_bonus`. -/
def total_required_for (bonus_id : Nat) (conds : List (String × Int)) : Int :=
  if bonus_id = 1 then condGet conds "weeks_required" 4
  else if bonus_id = 2 then condGet conds "clients_required" 3
  else if bonus_id = 3 then 1
  else 1

/-- `Database.activate_bonus` (src/main.py:1149): refuse (None) when the
user already holds two system-wide active activations, or a non-terminal
(`active`/`pending_review`) activation of this bonus, or the bonus does not
exist; otherwise insert the new activation row with window
`[today, today + duration_days]`.  The insert must satisfy the table's
`UNIQUE(user_id, bonus_id)` constraint: a leftover activation of this pair
in ANY status makes the insert raise a unique-violation error, rolling the
transaction back. -/
def activate_bonus (db : DB) (uid : Nat) (bonus_id : Nat) (today : Nat) :
    PyRes (Option UserBonus) × DB :=
  let active_count := (db.user_bonuses.filter
    (fun ub => ub.user_id == uid && ub.status == "active")).length
  if 2 ≤ active_count then (PyRes.ok none, db)
  else if db.user_bonuses.any (fun ub =>
      ub.user_id == uid && ub.bonus_id == bonus_id &&
      (ub.status == "active" || ub.status == "pending_review")) then
    (PyRes.ok none, db)
  else
    match db.bonuses.find? (fun b => b.id == bonus_id) with
    | none => (PyRes.ok none, db)
    | some b =>
      if db.user_bonuses.any (fun ub =>
          ub.user_id == uid && ub.bonus_id == bonus_id) then
        (PyRes.exn, db)   -- UNIQUE(user_id, bonus_id) violation
      else
        let ub : UserBonus :=
          { id := db.user_bonus_seq, user_id := uid, bonus_id := bonus_id,
            progress := 0,
            total_required := total_required_for bonus_id b.conditions,
            start_date := today, end_date := today + b.duration_days,
            status := "active", proof_data := none, reward_paid := false }
        let db1 := { db with user_bonuses := db.user_bonuses ++ [ub],
                             user_bonus_seq := db.user_bonus_seq + 1 }
        let db2 := log_activity db1 (some uid) "bonus_activated" "" 0
        (PyRes.ok (some ub), db2)

/-- `Database.approve_bonus` (src/main.py:1273): conditional fetch only
while `pending_review` (joined with the bonus and the user row); marks the
activation completed with `reward_paid`, credits the catalog reward through
`update_user_balance` when positive, notifies, logs. -/
def approve_bonus (db : DB) (user_bonus_id : Nat) (admin_id : Nat) :
    Bool × DB :=
  match db.user_bonuses.find?
      (fun ub => ub.id == user_bonus_id && ub.status == "pending_review") with
  | none => (false, db)
  | some ub =>
    match db.bonuses.find? (fun b => b.id == ub.bonus_id),
          getUser db ub.user_id with
    | some b, some _ =>
      let tbl := updateWhere db.user_bonuses
        (fun w => w.id == user_bonus_id)
        (fun w => { w with status := "completed", reward_paid := true })
      let db1 := { db with user_bonuses := tbl }
      let db2 := if b.reward > 0 then
          (update_user_balance db1 ub.user_id b.reward "bonus_reward").snd
        else db1
      let db3 := create_notification db2 "bonus_approved"
        (some ub.user_id) false
      (true, log_activity db3 (some admin_id) "bonus_approved" "" b.reward)
    | _, _ => (false, db)   -- the SQL JOIN produced no row

/-- `Database.reject_bonus` (src/main.py:1328): unconditional
`UPDATE user_bonuses SET status = rejected WHERE id = $1` — no guard on the
current status — then notify (when the row and its user exist), log, and
return `True`.  Balances are never touched. -/
def reject_bonus (db : DB) (user_bonus_id : Nat) (admin_id : Nat)
    (reason : String) : Bool × DB :=
  let tbl := updateWhere db.user_bonuses
    (fun w => w.id == user_bonus_id)
    (fun w => { w with status := "rejected" })
  let db1 := { db with user_bonuses := tbl }
  let db2 :=
    match db1.user_bonuses.find? (fun w => w.id == user_bonus_id) with
    | none => db1
    | some ub =>
      match getUser db1 ub.user_id with
      | none => db1   -- the JOIN with users produced no row
      | some _ => create_notification db1 "bonus_rejected"
          (some ub.user_id) false
  (true, log_activity db2 (some admin_id) "bonus_rejected" reason 0)

/-- `Database.confirm_receipt` (src/main.py:2123): conditional update only
while unconfirmed; a consultation-linked receipt delegates to
`confirm_consultation_payment`; an order-linked receipt increments the
order's `paid_amount` and then, when the order's owner has a referrer, pays
the referrer the flat `referral_bonus` and, when positive, the truncated
`referral_percentage` share of the received amount, both through
`update_user_balance` with their own audit reasons, both settings read from
`system_settings` at this moment. -/
def confirm_receipt (db : DB) (receipt_id : Nat) (admin_id : Nat)
    (now : Nat) : PyRes Bool × DB :=
  match db.receipts.find? (fun t => t.id == receipt_id && !t.confirmed) with
  | none => (PyRes.ok false, db)
  | some r =>
    let rcpts := updateWhere db.receipts
      (fun t => t.id == receipt_id && !t.confirmed)
      (fun t => { t with confirmed := true,
                         confirmed_by := some admin_id })
    let db1 := { db with receipts := rcpts }
    let step : PyRes DB :=
      match r.consultation_id with
      | some cid =>
        PyRes.ok (confirm_consultation_payment db1 cid admin_id).snd
      | none =>
        match r.order_id with
        | none => PyRes.ok db1
        | some oid =>
          let ords := updateWhere db1.orders
            (fun o => o.id == oid)
            (fun o => { o with paid_amount := o.paid_amount + r.amount,
                               last_activity := now })
          let db2 := { db1 with orders := ords }
          -- get_order, get_user_by_id and get_system_setting each draw a
          -- fresh pool connection, so they read the committed state from
          -- before this transaction; none of the values they read (user_id,
          -- referrer_id, the two settings) is written inside it
          match db.orders.find? (fun o => o.id == oid) with
          | none => PyRes.ok db2
          | some o =>
            match getUser db o.user_id with
            | none => PyRes.ok db2   -- get_order joins users: order is None
            | some user =>
              -- Python truthiness of order["user_id"]
              if o.user_id == 0 then PyRes.ok db2
              else
                match user.referrer_id with
                | none => PyRes.ok db2
                | some rr =>
                  -- Python truthiness of user["referrer_id"]
                  if rr == 0 then PyRes.ok db2
                  else
                    match py_int_setting_or db "referral_bonus" 400 with
                    | none => PyRes.exn
                    | some fb =>
                      let db3 :=
                        (update_user_balance db2 rr fb "referral_bonus").snd
                      match py_int_setting_or db
                          "referral_percentage" 10 with
                      | none => PyRes.exn
                      | some pc =>
                        -- int(receipt["amount"] * pct / 100) truncates
                        let pb := (r.amount * pc).tdiv 100
                        let db4 := if pb > 0 then
                            (update_user_balance db3 rr pb
                              "referral_percentage").snd
                          else db3
                        PyRes.ok db4
    match step with
    | PyRes.exn => (PyRes.exn, db)
    | PyRes.ok dbX =>
      let dbY := create_notification dbX "receipt_confirmed"
        (some r.user_id) false
      (PyRes.ok true, log_activity dbY (some admin_id)
        "receipt_confirmed" "" 0)

/-- The `default_settings` tuples of `Database.initialize_default_data`
(src/main.py:424): (key, value, description). -/
def default_settings : List (String × String × String) :=
  [("min_payout", "2000", "Минимальная сумма вывода"),
   ("referral_percentage", "10", "Реферальный процент"),
   ("referral_bonus", "400", "Фиксированный бонус за реферала"),
   ("consultation_price", "450", "Стоимость консультации"),
   ("consultation_duration", "45", "Длительность консультации (минуты)"),
   ("work_days", "Понедельник-Пятница", "Рабочие дни"),
   ("work_hours", "10:00-20:00", "Рабочие часы"),
   ("break_time", "13:00-14:00", "Перерыв"),
   ("phone", "+7 (925) 101-56-63", "Контактный телефон"),
   ("email", "timporsh97@icloud.com", "Email"),
   ("manager_username", "@bgh_997", "Менеджер в Telegram"),
   ("city", "Москва", "Город"),
   ("bank_name", "Тинькофф", "Название банка"),
   ("card_number", "2200 **** **** 5678", "Номер карты"),
   ("card_holder", "Тимофей", "Имя получателя"),
   ("payment_timeout", "3", "Таймаут оплаты (часы)"),
   ("order_stages", "9", "Количество этапов заказа"),
   ("incomplete_order_hours", "36",
     "Часов до напоминания о незавершенной заявке"),
   ("reminder_hours", "24", "За сколько часов напоминать о консультации"),
   ("daily_report_time", "09:00", "Время ежедневного отчета"),
   ("system_commission", "0", "Комиссия системы (%)")]

/-- `INSERT INTO system_settings ... ON CONFLICT (key) DO UPDATE SET value
= EXCLUDED.value`: on an existing key only `value` is overwritten. -/
def upsert_setting (l : List SettingRow) (k v d : String) : List SettingRow :=
  if l.any (fun s => s.key == k) then
    updateWhere l (fun s => s.key == k) (fun s => { s with value := v })
  else l ++ [⟨k, v, d⟩]

/-- One seed bonus of `Database.initialize_default_data`: the insert-tuple
fields that the model keeps (see `Bonus`). -/
structure BonusSeed where
  name : String
  reward : Int
  conditions : List (String × Int)
  duration_days : Nat
  max_activations : Int
  can_combine : Bool
  requirements : String
  icon : String
  position : Int
deriving DecidableEq

/-- The `bonuses_data` tuples of `Database.initialize_default_data`
(src/main.py:456); of each JSONB condition document the integer-valued
top-level keys are kept. -/
def default_bonuses : List BonusSeed :=
  [{ name := "Летописец в соцсетях", reward := 300,
     conditions := [("posts_per_week", 1), ("weeks_required", 4),
       ("reward_increase", 200)],
     duration_days := 30, max_activations := 1, can_combine := true,
     requirements := "Минимальная аудитория в соцсетях", icon := "📱",
     position := 1 },
   { name := "Быстрый старт", reward := 300,
     conditions := [("clients_required", 3), ("days_limit", 7)],
     duration_days := 7, max_activations := 1, can_combine := true,
     requirements := "Привести 3 клиентов за 7 дней", icon := "⚡",
     position := 2 },
   { name := "Охотник за сокровищами", reward := 1000,
     conditions := [("min_order_amount", 10000), ("days_limit", 30)],
     duration_days := 30, max_activations := 1, can_combine := true,
     requirements := "Клиент с бюджетом от 10 000₽", icon := "🏴‍☠️",
     position := 3 },
   { name := "Покровитель", reward := 0,
     conditions := [("percentage", 3), ("payout_day", 5)],
     duration_days := 0, max_activations := 0, can_combine := true,
     requirements := "3% от заказов реферала", icon := "💰",
     position := 4 }]

/-- `INSERT INTO bonuses (...) VALUES (...) ON CONFLICT DO NOTHING`: the
`bonuses` table declares no unique constraint besides its serial primary
key, so the ON CONFLICT clause never fires and the row is inserted on every
run, drawing a fresh serial id. -/
def insert_bonus (db : DB) (s : BonusSeed) : DB :=
  { db with
    bonuses := db.bonuses ++
      [{ id := db.bonus_seq, name := s.name, reward := s.reward,
         conditions := s.conditions, duration_days := s.duration_days,
         max_activations := s.max_activations,
         can_combine := s.can_combine, requirements := s.requirements,
         status := "active", icon := s.icon, position := s.position }],
    bonus_seq := db.bonus_seq + 1 }

/-- `Database.initialize_default_data` (src/main.py:420): upsert the default
settings, then run the seed inserts of the bonus catalog. -/
def initialize_default_data (db : DB) : DB :=
  let stgs := default_settings.foldl
    (fun l kvd => upsert_setting l kvd.fst kvd.snd.fst kvd.snd.snd)
    db.system_settings
  let db1 := { db with system_settings := stgs }
  default_bonuses.foldl insert_bonus db1

end Bot

namespace Bot

/- ===== generic list lemmas about the SQL UPDATE model ===== -/

theorem find?_updateWhere_eq (l : List α) (p : α → Bool) (f : α → α)
    (hp : ∀ a, p (f a) = p a) :
    (updateWhere l p f).find? p = (l.find? p).map f := by
  induction l with
  | nil => rfl
  | cons a t ih =>
    by_cases h : p a = true
    · have h2 : p (applyIf p f a) = true := by
        simp [applyIf, h, hp]
      simp only [updateWhere, List.map_cons] at *
      rw [List.find?_cons_of_pos _ h2, List.find?_cons_of_pos _ h]
      simp [applyIf, h]
    · have h2 : ¬ p (applyIf p f a) = true := by
        simp [applyIf, h]
      simp only [updateWhere, List.map_cons] at *
      rw [List.find?_cons_of_neg _ h2, List.find?_cons_of_neg _ h]
      exact ih

theorem find?_updateWhere_none (l : List α) (p : α → Bool) (f : α → α)
    (hf : ∀ a, p (f a) = false) :
    (updateWhere l p f).find? p = none := by
  rw [List.find?_eq_none]
  intro x hx
  obtain ⟨a, _, rfl⟩ := List.mem_map.mp hx
  by_cases h : p a = true
  · simp [applyIf, h, hf a]
  · simp [applyIf, h]

theorem mem_updateWhere_of_found (l : List α) (p : α → Bool) (f : α → α)
    (a : α) (h : l.find? p = some a) : f a ∈ updateWhere l p f := by
  have hmem : a ∈ l := List.mem_of_find?_eq_some h
  have hpa : p a = true := List.find?_some h
  have : applyIf p f a ∈ updateWhere l p f := List.mem_map_of_mem _ hmem
  simpa [applyIf, hpa] using this

theorem mem_updateWhere_self (l : List α) (p : α → Bool) (f : α → α)
    (a : α) (hmem : a ∈ l) (hpa : p a = true) : f a ∈ updateWhere l p f := by
  have : applyIf p f a ∈ updateWhere l p f := List.mem_map_of_mem _ hmem
  simpa [applyIf, hpa] using this

/- ===== ledger lemmas ===== -/

theorem getUser_update_user_balance (db : DB) (uid : Nat) (amount : Int)
    (reason : String) :
    getUser (update_user_balance db uid amount reason).snd uid
      = (getUser db uid).map (credit amount) := by
  show (updateWhere db.users (fun u => u.id == uid) (credit amount)).find?
        (fun u => u.id == uid) = _
  exact find?_updateWhere_eq _ _ _ (fun a => rfl)

theorem getUser_apply_balance_updates (amounts : List Int) (db : DB)
    (uid : Nat) (reason : String) (u : User) (h : getUser db uid = some u) :
    getUser (apply_balance_updates db uid amounts reason) uid =
      some { u with
        balance := u.balance + sum_deltas amounts,
        total_earned := u.total_earned + sum_pos_deltas amounts } := by
  induction amounts generalizing db u with
  | nil =>
    cases u
    simpa [apply_balance_updates, sum_deltas, sum_pos_deltas] using h
  | cons a t ih =>
    have hstep : getUser (update_user_balance db uid a reason).snd uid
        = some (credit a u) := by
      rw [getUser_update_user_balance, h]; rfl
    have := ih (update_user_balance db uid a reason).snd (credit a u) hstep
    have heq : apply_balance_updates db uid (a :: t) reason
        = apply_balance_updates (update_user_balance db uid a reason).snd
            uid t reason := rfl
    rw [heq, this]
    obtain ⟨i, tg, fn, rc, rid, b, te, pe⟩ := u
    simp only [credit, Option.some.injEq, User.mk.injEq, sum_deltas,
      sum_pos_deltas, List.foldr_cons, true_and, and_true]
    constructor <;> ring

end Bot

namespace Bot

/- ===== concrete stores for counterexamples and witnesses ===== -/

/-- A store with empty tables and all serial counters at 1. -/
def emptyDB : DB :=
  { users := [], orders := [], order_stages := [], consultation_slots := [],
    consultations := [], bonuses := [], user_bonuses := [], payouts := [],
    receipts := [], system_settings := [], notifications := [],
    activity_log := [], order_seq := 1, consultation_seq := 1,
    user_bonus_seq := 1, payout_seq := 1, bonus_seq := 1 }

/-- One user, id 1, with zero balance. -/
def userZero : User :=
  { id := 1, telegram_id := 11, full_name := "A", referral_code := "R1",
    referrer_id := none, balance := 0, total_earned := 0,
    pending_earnings := 0 }

def dbOneUser : DB := { emptyDB with users := [userZero] }

/- ===== C1 ===== -/

/-- C1, counterexample: `update_user_balance` called with a negative delta
whose magnitude exceeds the current balance does not refuse the mutation: on
a user with balance 0 a delta of -100 returns `True` and leaves the observed
balance at -100. -/
theorem update_user_balance_no_refusal_cex :
    (update_user_balance dbOneUser 1 (-100) "manual_debit").fst = true ∧
    (getUser (update_user_balance dbOneUser 1 (-100) "manual_debit").snd
        1).map User.balance = some (-100) := by
  constructor
  · rfl
  · rfl

/-- C1, amended: `update_user_balance` applies the signed delta
unconditionally — it always returns `True` and sets `balance` to
`balance + amount` (which may be negative; there is no refusal and no
clamping), while `total_earned` accumulates only positive deltas. -/
theorem update_user_balance_unconditional (db : DB) (uid : Nat)
    (amount : Int) (reason : String) (u : User)
    (h : getUser db uid = some u) :
    (update_user_balance db uid amount reason).fst = true ∧
    getUser (update_user_balance db uid amount reason).snd uid =
      some { u with
        balance := u.balance + amount,
        total_earned :=
          u.total_earned + (if amount > 0 then amount else 0) } := by
  refine ⟨rfl, ?_⟩
  rw [getUser_update_user_balance, h]
  rfl

/-- C1 witness: applying the amended theorem at a user with balance 0 and
delta -100 — the mutation is applied, not refused, and yields balance
-100. -/
theorem update_user_balance_unconditional_witness :
    (update_user_balance dbOneUser 1 (-100) "manual_debit").fst = true ∧
    getUser (update_user_balance dbOneUser 1 (-100) "manual_debit").snd 1 =
      some { userZero with balance := -100 } := by
  have h := update_user_balance_unconditional dbOneUser 1 (-100)
    "manual_debit" userZero rfl
  refine ⟨h.1, ?_⟩
  rw [h.2]
  rfl

/- ===== C2 ===== -/

/-- C2: over any finite sequence of `update_user_balance` calls on one user,
the final `balance` is the initial balance plus the sum of all signed
deltas, and the final `total_earned` is the initial `total_earned` plus the
sum of only the positive deltas. -/
theorem balance_sequence_conservation (db : DB) (uid : Nat)
    (amounts : List Int) (reason : String) (u : User)
    (h : getUser db uid = some u) :
    getUser (apply_balance_updates db uid amounts reason) uid =
      some { u with
        balance := u.balance + sum_deltas amounts,
        total_earned := u.total_earned + sum_pos_deltas amounts } :=
  getUser_apply_balance_updates amounts db uid reason u h

/-- C2 witness: the sequence [+300, -200, +50] on a user starting at
balance 0 ends at balance 150 and total_earned 350. -/
theorem balance_sequence_conservation_witness :
    getUser (apply_balance_updates dbOneUser 1 [300, -200, 50] "r") 1 =
      some { userZero with balance := 150, total_earned := 350 } := by
  have h := balance_sequence_conservation dbOneUser 1 [300, -200, 50] "r"
    userZero rfl
  rw [h]
  rfl

end Bot

namespace Bot

/- ===== C7 ===== -/

/-- An order form with every answer empty. -/
def formEmpty : OrderForm :=
  { phone := none, game_name := none, occasion := none,
    target_audience := none, budget := none, players_count := none,
    emotions := [], game_basis := none, source := none,
    play_frequency := none, description := none, telegram_username := none }

/-- C7, counterexample: `create_order` seeds no stage records — on a
concrete store the freshly created order has 0 rows in `order_stages`, not
the 9 canonical stage rows the claim requires. -/
theorem create_order_no_stage_rows_cex :
    ((create_order dbOneUser 1 formEmpty 100).snd.order_stages.filter
        (fun st => st.order_id ==
          (create_order dbOneUser 1 formEmpty 100).fst.id)).length = 0 ∧
    ¬ ((create_order dbOneUser 1 formEmpty 100).snd.order_stages.filter
        (fun st => st.order_id ==
          (create_order dbOneUser 1 formEmpty 100).fst.id)).length = 9 := by
  exact ⟨rfl, by decide⟩

/-- C7, amended: `create_order` creates the order with status `new`,
`current_stage` 1 and `progress_percent` 0 (the DDL column defaults), stamps
`started_at` and `last_activity`, and appends exactly one `orders` row — but
it seeds no stage records: the `order_stages` table is left untouched. -/
theorem create_order_defaults_no_seeding (db : DB) (uid : Nat)
    (data : OrderForm) (now : Nat) :
    (create_order db uid data now).fst.status = "new" ∧
    (create_order db uid data now).fst.current_stage = 1 ∧
    (create_order db uid data now).fst.progress_percent = 0 ∧
    (create_order db uid data now).fst.started_at = some now ∧
    (create_order db uid data now).fst.last_activity = now ∧
    (create_order db uid data now).snd.orders =
      db.orders ++ [(create_order db uid data now).fst] ∧
    (create_order db uid data now).snd.order_stages = db.order_stages :=
  ⟨rfl, rfl, rfl, rfl, rfl, rfl, rfl⟩

/- ===== C8 ===== -/

/-- The seeded bonus "Быстрый старт" as a catalog row (id 2). -/
def bonusQuickStart : Bonus :=
  { id := 2, name := "Быстрый старт", reward := 300,
    conditions := [("clients_required", 3), ("days_limit", 7)],
    duration_days := 7, max_activations := 1, can_combine := true,
    requirements := "Привести 3 клиентов за 7 дней", status := "active",
    icon := "⚡", position := 2 }

/-- A terminal (rejected) activation of bonus 2 by user 1. -/
def rejectedActivation : UserBonus :=
  { id := 1, user_id := 1, bonus_id := 2, progress := 0,
    total_required := 3, start_date := 0, end_date := 7,
    status := "rejected", proof_data := none, reward_paid := false }

/-- Store in which user 1 has one rejected activation of bonus 2. -/
def dbC8 : DB :=
  { emptyDB with users := [userZero], bonuses := [bonusQuickStart],
                 user_bonuses := [rejectedActivation], user_bonus_seq := 2 }

/-- C8: re-activating a bonus whose previous activation was rejected does
NOT create a new `user_bonuses` row — the leftover rejected row still
occupies the `UNIQUE(user_id, bonus_id)` slot, so the INSERT raises a
unique-violation error and the transaction rolls back, leaving the store
unchanged.  This contradicts the claim (and the status check of
`activate_bonus` itself, which deliberately lets terminal statuses pass). -/
theorem activate_bonus_after_rejection_raises :
    activate_bonus dbC8 1 2 50 = (PyRes.exn, dbC8) := rfl

/- ===== C9 ===== -/

/-- C9: `initialize_default_data` is not idempotent — a first run on an
empty store seeds 4 bonus catalog rows, and a second run inserts 4 duplicate
rows (the `bonuses` table has no unique constraint, so its
ON CONFLICT DO NOTHING clause never fires), while the `system_settings`
upsert does remain stable. -/
theorem initialize_default_data_duplicates_bonuses :
    (initialize_default_data emptyDB).bonuses.length = 4 ∧
    (initialize_default_data
        (initialize_default_data emptyDB)).bonuses.length = 8 ∧
    (initialize_default_data
        (initialize_default_data emptyDB)).system_settings =
      (initialize_default_data emptyDB).system_settings :=
  ⟨rfl, rfl, rfl⟩

/- ===== C10 ===== -/

theorem reject_bonus_users_eq (db : DB) (ubid admin : Nat)
    (reason : String) :
    (reject_bonus db ubid admin reason).snd.users = db.users := by
  unfold reject_bonus
  dsimp only
  split
  · rfl
  · split
    · rfl
    · rfl

theorem reject_bonus_user_bonuses_eq (db : DB) (ubid admin : Nat)
    (reason : String) :
    (reject_bonus db ubid admin reason).snd.user_bonuses =
      updateWhere db.user_bonuses (fun w => w.id == ubid)
        (fun w => { w with status := "rejected" }) := by
  unfold reject_bonus
  dsimp only
  split
  · rfl
  · split
    · rfl
    · rfl

/-- C10: `reject_bonus` returns `True` and sets the targeted activation's
status to `rejected` unconditionally, whatever its current status, while
never touching any user's balances — in particular a `completed` activation
whose reward was already credited by `approve_bonus` is flipped to
`rejected` with the paid reward left on the balance. -/
theorem reject_bonus_unconditional (db : DB) (ubid admin : Nat)
    (reason : String) :
    (reject_bonus db ubid admin reason).fst = true ∧
    (reject_bonus db ubid admin reason).snd.users = db.users ∧
    (∀ w ∈ (reject_bonus db ubid admin reason).snd.user_bonuses,
        w.id = ubid → w.status = "rejected") ∧
    (∀ w ∈ db.user_bonuses, w.id = ubid →
        ({ w with status := "rejected" } : UserBonus) ∈
          (reject_bonus db ubid admin reason).snd.user_bonuses) := by
  refine ⟨rfl, reject_bonus_users_eq db ubid admin reason, ?_, ?_⟩
  · rw [reject_bonus_user_bonuses_eq]
    intro w hw hid
    obtain ⟨a, _, rfl⟩ := List.mem_map.mp hw
    by_cases h : (a.id == ubid) = true
    · simp [applyIf, h]
    · simp only [applyIf, h, if_false, Bool.false_eq_true, if_neg,
        not_false_iff] at hid ⊢
      exact absurd (beq_iff_eq.mpr hid) h
  · rw [reject_bonus_user_bonuses_eq]
    intro w hw hid
    exact mem_updateWhere_self _ _ _ _ hw (beq_iff_eq.mpr hid)

/-- A pending-review activation of bonus 2 by user 1 (progress complete). -/
def pendingActivation : UserBonus :=
  { id := 1, user_id := 1, bonus_id := 2, progress := 3,
    total_required := 3, start_date := 0, end_date := 7,
    status := "pending_review", proof_data := none, reward_paid := false }

/-- Store in which user 1 has one pending-review activation of bonus 2. -/
def dbC10 : DB :=
  { emptyDB with users := [userZero], bonuses := [bonusQuickStart],
                 user_bonuses := [pendingActivation], user_bonus_seq := 2 }

/-- The store after the admin approves the activation (reward 300 paid). -/
def dbC10approved : DB := (approve_bonus dbC10 1 9).snd

/-- The activation row after approval. -/
def ubCompleted : UserBonus :=
  { pendingActivation with status := "completed", reward_paid := true }

/-- C10 witness: on the concrete store where the activation was already
approved (status `completed`, 300 credited), `reject_bonus` returns `True`,
leaves all user rows (hence the paid 300) untouched, and the row reappears
with status `rejected`. -/
theorem reject_bonus_unconditional_witness :
    (reject_bonus dbC10approved 1 9 "no").fst = true ∧
    (reject_bonus dbC10approved 1 9 "no").snd.users = dbC10approved.users ∧
    (getUser dbC10approved 1).map User.balance = some 300 ∧
    ({ ubCompleted with status := "rejected" } : UserBonus) ∈
      (reject_bonus dbC10approved 1 9 "no").snd.user_bonuses := by
  have h := reject_bonus_unconditional dbC10approved 1 9 "no"
  exact ⟨h.1, h.2.1, by decide, h.2.2.2 ubCompleted (by decide) rfl⟩

/- ===== C3 ===== -/

theorem book_consultation_fail (db : DB) (uid sid : Nat)
    (h : db.consultation_slots.find?
      (fun s => s.id == sid && s.is_available) = none) :
    book_consultation db uid sid = (PyRes.ok none, db) := by
  simp [book_consultation, h]

/-- C3: booking a slot that is not available (or absent) returns a
definitive failure with the store untouched, so no Consultation row is
created; a successful booking flips the slot to unavailable, attaches the
booker, appends exactly one Consultation row copying the slot's date/time,
and every later attempt to book the same slot fails without change — at
most one booking per slot succeeds. -/
theorem book_consultation_at_most_once (db : DB) (uid sid : Nat) :
    (db.consultation_slots.find?
        (fun s => s.id == sid && s.is_available) = none →
      book_consultation db uid sid = (PyRes.ok none, db)) ∧
    (∀ s price u,
      db.consultation_slots.find?
        (fun t => t.id == sid && t.is_available) = some s →
      fetch_setting_int_or db "consultation_price" 450 = some price →
      getUser db uid = some u →
      ∃ c db2,
        book_consultation db uid sid = (PyRes.ok (some c), db2) ∧
        c.user_id = uid ∧ c.consultation_date = s.slot_date ∧
        c.consultation_time = s.slot_time ∧ c.price = price ∧
        db2.consultations = db.consultations ++ [c] ∧
        ({ s with is_available := false, booked_by := some uid } :
            ConsultationSlot) ∈ db2.consultation_slots ∧
        (∀ t ∈ db2.consultation_slots, t.id = sid →
            t.is_available = false) ∧
        (∀ uid2, book_consultation db2 uid2 sid = (PyRes.ok none, db2))) := by
  constructor
  · exact book_consultation_fail db uid sid
  · intro s price u hs hp hu
    simp only [book_consultation, hs, hp, hu]
    refine ⟨_, _, rfl, rfl, rfl, rfl, rfl, rfl, ?_, ?_, ?_⟩
    · exact mem_updateWhere_of_found _ _ _ _ hs
    · intro t ht hid
      obtain ⟨a, _, rfl⟩ := List.mem_map.mp ht
      by_cases hpa : (a.id == sid && a.is_available) = true
      · simp [applyIf, hpa]
      · simp only [applyIf, hpa, if_false, Bool.false_eq_true,
          if_neg, not_false_iff] at hid ⊢
        have h1 : (a.id == sid) = true := beq_iff_eq.mpr hid
        simp only [h1, Bool.true_and] at hpa
        exact Bool.not_eq_true _ |>.mp hpa
    · intro uid2
      exact book_consultation_fail _ uid2 sid
        (find?_updateWhere_none _ _ _ (fun a => by simp))

/-- A concrete store with one available slot and one user. -/
def slotOne : ConsultationSlot :=
  { id := 1, slot_date := 20, slot_time := 10, is_available := true,
    booked_by := none, created_by_admin := 9 }

def dbC3 : DB :=
  { emptyDB with users := [userZero], consultation_slots := [slotOne] }

/-- C3 witness: booking the concrete available slot succeeds, flips it to
unavailable with the booker attached, creates exactly one consultation row,
and a second booking of the same slot by anyone fails without change. -/
theorem book_consultation_at_most_once_witness :
    ∃ c db2,
      book_consultation dbC3 1 1 = (PyRes.ok (some c), db2) ∧
      c.user_id = 1 ∧ c.consultation_date = slotOne.slot_date ∧
      c.consultation_time = slotOne.slot_time ∧ c.price = 450 ∧
      db2.consultations = dbC3.consultations ++ [c] ∧
      ({ slotOne with is_available := false, booked_by := some 1 } :
          ConsultationSlot) ∈ db2.consultation_slots ∧
      (∀ t ∈ db2.consultation_slots, t.id = 1 → t.is_available = false) ∧
      (∀ uid2, book_consultation db2 uid2 1 = (PyRes.ok none, db2)) :=
  (book_consultation_at_most_once dbC3 1 1).2 slotOne 450 userZero
    rfl rfl rfl

/- ===== C4 ===== -/

/-- C4: `create_payout_request` returns no request and leaves the whole
store (hence balance and pending_earnings) unchanged when the amount
exceeds the balance or is below the configured minimum; otherwise it
appends one pending Payout row for the amount and atomically moves the
amount from `balance` into `pending_earnings`. -/
theorem create_payout_request_spec (db : DB) (uid : Nat) (amount : Int)
    (card holder : String) (u : User) (hu : getUser db uid = some u) :
    (u.balance < amount →
      create_payout_request db uid amount card holder =
        (PyRes.ok none, db)) ∧
    (∀ m, fetch_setting_int_or db "min_payout" 2000 = some m →
      ¬ u.balance < amount → amount < m →
      create_payout_request db uid amount card holder =
        (PyRes.ok none, db)) ∧
    (∀ m, fetch_setting_int_or db "min_payout" 2000 = some m →
      ¬ u.balance < amount → ¬ amount < m →
      ∃ p db2,
        create_payout_request db uid amount card holder =
          (PyRes.ok (some p), db2) ∧
        p.status = "pending" ∧ p.amount = amount ∧ p.user_id = uid ∧
        db2.payouts = db.payouts ++ [p] ∧
        getUser db2 uid = some { u with
          balance := u.balance - amount,
          pending_earnings := u.pending_earnings + amount }) := by
  refine ⟨?_, ?_, ?_⟩
  · intro hlt
    simp [create_payout_request, hu, hlt]
  · intro m hm hge hmin
    simp [create_payout_request, hu, hge, hm, hmin]
  · intro m hm hge hmin
    simp only [create_payout_request, hu, hge, hm, hmin, if_false,
      if_neg, not_false_iff, ite_false]
    refine ⟨_, _, rfl, rfl, rfl, rfl, rfl, ?_⟩
    have key := find?_updateWhere_eq db.users (fun w => w.id == uid)
      (fun w => { w with balance := w.balance - amount,
                         pending_earnings := w.pending_earnings + amount })
      (fun a => rfl)
    show (updateWhere db.users _ _).find? (fun w => w.id == uid) = _
    rw [key, show db.users.find? (fun w => w.id == uid) = some u from hu]
    rfl

/-- A user with exactly 2000 on the balance. -/
def userRich : User := { userZero with balance := 2000 }

def dbC4 : DB := { emptyDB with users := [userRich] }

/-- C4 witness: requesting a payout of 2000 at balance 2000 (minimum 2000
by default) succeeds and yields balance 0, pending_earnings 2000, with one
pending Payout row appended. -/
theorem create_payout_request_spec_witness :
    ∃ p db2,
      create_payout_request dbC4 1 2000 "1234567890123456" "T" =
        (PyRes.ok (some p), db2) ∧
      p.status = "pending" ∧ p.amount = 2000 ∧ p.user_id = 1 ∧
      db2.payouts = dbC4.payouts ++ [p] ∧
      getUser db2 1 = some { userRich with
        balance := 0, pending_earnings := 2000 } := by
  have h := (create_payout_request_spec dbC4 1 2000 "1234567890123456" "T"
    userRich rfl).2.2 2000 rfl (by decide) (by decide)
  simpa using h

/- ===== C5 ===== -/

/-- C5: `process_payout` succeeds only on a payout currently in status
pending (any call on a non-pending payout returns false and changes
nothing, so each payout is processed at most once); approving marks it
completed and removes the reserved amount from `pending_earnings` while
leaving `balance` unchanged; rejecting marks it rejected, restores the
amount to `balance` and removes it from `pending_earnings`; afterwards any
further processing of the same payout fails without change. -/
theorem process_payout_lifecycle (db : DB) (pid admin : Nat)
    (rr : Option String) :
    (db.payouts.find? (fun p => p.id == pid && p.status == "pending")
        = none →
      ∀ ap, process_payout db pid admin ap rr = (false, db)) ∧
    (∀ p u,
      db.payouts.find? (fun q => q.id == pid && q.status == "pending")
        = some p →
      getUser db p.user_id = some u →
      (∃ db2, process_payout db pid admin true rr = (true, db2) ∧
        ({ p with status := "completed", processed_by := some admin } :
            Payout) ∈ db2.payouts ∧
        getUser db2 p.user_id = some { u with
          pending_earnings := u.pending_earnings - p.amount } ∧
        (∀ admin2 ap2 rr2,
          process_payout db2 pid admin2 ap2 rr2 = (false, db2))) ∧
      (∃ db2, process_payout db pid admin false rr = (true, db2) ∧
        ({ p with status := "rejected", processed_by := some admin,
                  rejection_reason := rr } : Payout) ∈ db2.payouts ∧
        getUser db2 p.user_id = some { u with
          balance := u.balance + p.amount,
          pending_earnings := u.pending_earnings - p.amount } ∧
        (∀ admin2 ap2 rr2,
          process_payout db2 pid admin2 ap2 rr2 = (false, db2)))) := by
  constructor
  · intro hn ap
    simp [process_payout, hn]
  · intro p u hp hu
    have hid : (p.id == pid) = true := by
      have := List.find?_some hp
      exact (Bool.and_eq_true _ _ |>.mp this).1
    have hmem : p ∈ db.payouts := List.mem_of_find?_eq_some hp
    constructor
    · simp only [process_payout, hp, if_true, ite_true]
      refine ⟨_, rfl, ?_, ?_, ?_⟩
      · exact mem_updateWhere_self _ _ _ _ hmem hid
      · have key := find?_updateWhere_eq db.users
          (fun w => w.id == p.user_id)
          (fun w => { w with
            pending_earnings := w.pending_earnings - p.amount })
          (fun a => rfl)
        show (updateWhere db.users _ _).find? (fun w => w.id == p.user_id)
          = _
        rw [key, show db.users.find? (fun w => w.id == p.user_id) = some u
          from hu]
        rfl
      · intro admin2 ap2 rr2
        have hn : (updateWhere db.payouts (fun q => q.id == pid)
            (fun q => { q with status := "completed",
                               processed_by := some admin })).find?
            (fun q => q.id == pid && q.status == "pending") = none := by
          rw [List.find?_eq_none]
          intro x hx
          obtain ⟨a, _, rfl⟩ := List.mem_map.mp hx
          by_cases hida : (a.id == pid) = true
          · simp [applyIf, hida]
          · simp [applyIf, hida]
        simp [process_payout, log_activity, create_notification, hn]
    · simp only [process_payout, hp, Bool.false_eq_true, ite_false]
      refine ⟨_, rfl, ?_, ?_, ?_⟩
      · exact mem_updateWhere_self _ _ _ _ hmem hid
      · have key := find?_updateWhere_eq db.users
          (fun w => w.id == p.user_id)
          (fun w => { w with
            balance := w.balance + p.amount,
            pending_earnings := w.pending_earnings - p.amount })
          (fun a => rfl)
        show (updateWhere db.users _ _).find? (fun w => w.id == p.user_id)
          = _
        rw [key, show db.users.find? (fun w => w.id == p.user_id) = some u
          from hu]
        rfl
      · intro admin2 ap2 rr2
        have hn : (updateWhere db.payouts (fun q => q.id == pid)
            (fun q => { q with status := "rejected",
                               processed_by := some admin,
                               rejection_reason := rr })).find?
            (fun q => q.id == pid && q.status == "pending") = none := by
          rw [List.find?_eq_none]
          intro x hx
          obtain ⟨a, _, rfl⟩ := List.mem_map.mp hx
          by_cases hida : (a.id == pid) = true
          · simp [applyIf, hida]
          · simp [applyIf, hida]
        simp [process_payout, log_activity, create_notification, hn]

/-- The store of the payout lifecycle example, as left by
`create_payout_request(2000)` at balance 2000: balance 0, pending 2000,
one pending payout of 2000. -/
def dbC5 : DB := (create_payout_request dbC4 1 2000 "1234567890123456"
  "T").snd

/-- C5 witness: on the concrete post-request store (balance 0, pending
2000), approving yields balance 0 and pending 0 with the payout completed,
while rejecting instead yields balance 2000 and pending 0 with the payout
rejected; both leave the payout unprocessable a second time. -/
theorem process_payout_lifecycle_witness :
    (∃ db2, process_payout dbC5 1 9 true none = (true, db2) ∧
      ({ id := 1, payout_number := "PAY1", user_id := 1, amount := 2000,
         card_number := "1234567890123456", card_holder := "T",
         status := "completed", processed_by := some 9,
         rejection_reason := none } : Payout) ∈ db2.payouts ∧
      getUser db2 1 = some { userRich with
        balance := 0, pending_earnings := 0 } ∧
      (∀ admin2 ap2 rr2,
        process_payout db2 1 admin2 ap2 rr2 = (false, db2))) ∧
    (∃ db2, process_payout dbC5 1 9 false none = (true, db2) ∧
      ({ id := 1, payout_number := "PAY1", user_id := 1, amount := 2000,
         card_number := "1234567890123456", card_holder := "T",
         status := "rejected", processed_by := some 9,
         rejection_reason := none } : Payout) ∈ db2.payouts ∧
      getUser db2 1 = some { userRich with
        balance := 2000, pending_earnings := 0 } ∧
      (∀ admin2 ap2 rr2,
        process_payout db2 1 admin2 ap2 rr2 = (false, db2))) := by
  have h := (process_payout_lifecycle dbC5 1 9 none).2
    { id := 1, payout_number := "PAY1", user_id := 1, amount := 2000,
      card_number := "1234567890123456", card_holder := "T",
      status := "pending", processed_by := none, rejection_reason := none }
    { userRich with balance := 0, pending_earnings := 2000 }
    (by decide) (by decide)
  constructor
  · obtain ⟨db2, h1, h2, h3, h4⟩ := h.1
    exact ⟨db2, h1, h2, by simpa using h3, h4⟩
  · obtain ⟨db2, h1, h2, h3, h4⟩ := h.2
    exact ⟨db2, h1, h2, by simpa using h3, h4⟩

/- ===== C6 ===== -/

/-- C6: confirming an unconfirmed order-linked receipt increments the
order's `paid_amount` by the receipt amount and, exactly when the order's
owner has a referrer, credits that referrer the flat `referral_bonus` plus
the truncated `referral_percentage` share of the amount — both values read
from `system_settings` at confirmation time (the hypotheses constrain the
store as it is when `confirm_receipt` runs) — as `update_user_balance`
credits with the distinct audit reasons `referral_bonus` and
`referral_percentage` (the percentage credit is issued only when positive);
when the owner has no referrer, no balance is touched. -/
theorem confirm_receipt_referral_credit (db : DB) (rid admin now : Nat)
    (r : Receipt) (oid : Nat) (o : OrderRow) (user : User)
    (hr : db.receipts.find? (fun t => t.id == rid && !t.confirmed) = some r)
    (hc : r.consultation_id = none)
    (ho : r.order_id = some oid)
    (hoo : db.orders.find? (fun t => t.id == oid) = some o)
    (huid : ¬ o.user_id = 0)
    (hu : getUser db o.user_id = some user) :
    (∀ rr ruser fb pc,
      user.referrer_id = some rr → ¬ rr = 0 →
      getUser db rr = some ruser →
      py_int_setting_or db "referral_bonus" 400 = some fb →
      py_int_setting_or db "referral_percentage" 10 = some pc →
      0 ≤ r.amount → 0 ≤ pc →
      ∃ db2, confirm_receipt db rid admin now = (PyRes.ok true, db2) ∧
        ({ o with paid_amount := o.paid_amount + r.amount,
                  last_activity := now } : OrderRow) ∈ db2.orders ∧
        getUser db2 rr = some { ruser with
          balance := ruser.balance + fb + (r.amount * pc).tdiv 100,
          total_earned := ruser.total_earned +
            (if fb > 0 then fb else 0) +
            (if (r.amount * pc).tdiv 100 > 0
              then (r.amount * pc).tdiv 100 else 0) } ∧
        db2.activity_log = db.activity_log ++
          [⟨some rr, "balance_update", "referral_bonus", fb⟩] ++
          (if (r.amount * pc).tdiv 100 > 0 then
            [⟨some rr, "balance_update", "referral_percentage",
              (r.amount * pc).tdiv 100⟩] else []) ++
          [⟨some admin, "receipt_confirmed", "", 0⟩]) ∧
    (user.referrer_id = none →
      ∃ db2, confirm_receipt db rid admin now = (PyRes.ok true, db2) ∧
        ({ o with paid_amount := o.paid_amount + r.amount,
                  last_activity := now } : OrderRow) ∈ db2.orders ∧
        db2.users = db.users) := by
  have h0 : (o.user_id == 0) = false := beq_eq_false_iff_ne.mpr huid
  constructor
  · intro rr ruser fb pc href hrr0 hrru hfb hpc hra hpc0
    have hrrb : (rr == 0) = false := beq_eq_false_iff_ne.mpr hrr0
    have hru : db.users.find? (fun u => u.id == rr) = some ruser := hrru
    by_cases hpb : (r.amount * pc).tdiv 100 > 0
    · simp only [confirm_receipt, hr, hc, ho, hoo, hu, h0, href, hrrb,
        hfb, hpc, hpb, Bool.false_eq_true, ite_false, ite_true,
        update_user_balance, log_activity, create_notification]
      refine ⟨_, rfl, ?_, ?_, ?_⟩
      · exact mem_updateWhere_of_found _ _ _ _ hoo
      · have k1 := find?_updateWhere_eq db.users (fun w => w.id == rr)
          (credit fb) (fun a => rfl)
        have k2 := find?_updateWhere_eq
          (updateWhere db.users (fun w => w.id == rr) (credit fb))
          (fun w => w.id == rr) (credit ((r.amount * pc).tdiv 100))
          (fun a => rfl)
        show (updateWhere (updateWhere db.users _ _) _ _).find?
          (fun w => w.id == rr) = _
        rw [k2, k1, hru]
        obtain ⟨i, tg, fn, rc, rid2, b, te, pe⟩ := ruser
        simp only [Option.map_some', credit, Option.some.injEq,
          User.mk.injEq, true_and, and_true, hpb, ite_true]
      · simp [hpb]
    · simp only [confirm_receipt, hr, hc, ho, hoo, hu, h0, href, hrrb,
        hfb, hpc, hpb, Bool.false_eq_true, ite_false, ite_true,
        update_user_balance, log_activity, create_notification]
      have hpb0 : (r.amount * pc).tdiv 100 = 0 :=
        le_antisymm (not_lt.mp hpb)
          (Int.tdiv_nonneg (mul_nonneg hra hpc0) (by norm_num))
      refine ⟨_, rfl, ?_, ?_, ?_⟩
      · exact mem_updateWhere_of_found _ _ _ _ hoo
      · have k1 := find?_updateWhere_eq db.users (fun w => w.id == rr)
          (credit fb) (fun a => rfl)
        show (updateWhere db.users _ _).find? (fun w => w.id == rr) = _
        rw [k1, hru]
        obtain ⟨i, tg, fn, rc, rid2, b, te, pe⟩ := ruser
        simp only [Option.map_some', credit, Option.some.injEq,
          User.mk.injEq, true_and, and_true, hpb0, ite_true]
        constructor <;> ring
      · simp [hpb]
  · intro href
    simp only [confirm_receipt, hr, hc, ho, hoo, hu, h0, href,
      Bool.false_eq_true, ite_false]
    exact ⟨_, rfl, mem_updateWhere_of_found _ _ _ _ hoo, rfl⟩

/-- The order owner (user 2), referred by user 3. -/
def userPayer : User :=
  { id := 2, telegram_id := 22, full_name := "P", referral_code := "R2",
    referrer_id := some 3, balance := 0, total_earned := 0,
    pending_earnings := 0 }

/-- The referrer (user 3) with empty balances. -/
def userReferrer : User :=
  { id := 3, telegram_id := 33, full_name := "R", referral_code := "R3",
    referrer_id := none, balance := 0, total_earned := 0,
    pending_earnings := 0 }

/-- The order of user 2 that the confirmed receipt pays into. -/
def orderC6 : OrderRow :=
  { id := 1, order_number := "SG1", user_id := 2, phone := none,
    game_name := none, occasion := none, target_audience := none,
    budget := none, players_count := none, emotions := [],
    game_basis := none, source := none, play_frequency := none,
    description := none, telegram_username := none, price := some 10000,
    paid_amount := 0, discount_percent := 0, current_stage := 1,
    total_stages := 9, progress_percent := 0, manager_id := none,
    deadline := none, status := "new", started_at := some 5,
    last_activity := 5, completed_at := none, created_at := 5 }

/-- An unconfirmed receipt of 1000 linked to that order. -/
def receiptC6 : Receipt :=
  { id := 1, receipt_number := "REC1", user_id := 2, amount := 1000,
    payment_type := "order_payment", order_id := some 1,
    consultation_id := none, confirmed := false, confirmed_by := none }

/-- Store for the receipt-confirmation scenario; `system_settings` is empty
so the engine falls back to the defaults 400 and 10 at read time. -/
def dbC6 : DB :=
  { emptyDB with users := [userPayer, userReferrer], orders := [orderC6],
                 receipts := [receiptC6] }

/-- C6 witness: confirming the concrete receipt of 1000 credits referrer 3
with 400 + 100 = 500 (total_earned likewise), raises the order's
paid_amount to 1000, and writes the two distinct balance audit entries. -/
theorem confirm_receipt_referral_credit_witness :
    ∃ db2, confirm_receipt dbC6 1 9 77 = (PyRes.ok true, db2) ∧
      ({ orderC6 with paid_amount := 1000, last_activity := 77 } :
          OrderRow) ∈ db2.orders ∧
      getUser db2 3 = some { userReferrer with
        balance := 500, total_earned := 500 } ∧
      db2.activity_log = dbC6.activity_log ++
        [⟨some 3, "balance_update", "referral_bonus", 400⟩] ++
        [⟨some 3, "balance_update", "referral_percentage", 100⟩] ++
        [⟨some 9, "receipt_confirmed", "", 0⟩] := by
  have h := (confirm_receipt_referral_credit dbC6 1 9 77 receiptC6 1
    orderC6 userPayer rfl rfl rfl rfl (by decide) rfl).1 3 userReferrer
    400 10 rfl (by decide) rfl rfl rfl (by decide) (by decide)
  obtain ⟨db2, h1, h2, h3, h4⟩ := h
  refine ⟨db2, h1, ?_, ?_, ?_⟩
  · simpa using h2
  · simpa using h3
  · simpa using h4

end Bot
